import Mathlib

/-!
# Verification of the `graceful` shutdown library

Shallow embedding of `graceful.go` (package `graceful`): the connection
tracker goroutine, the drain coordinator at the tail of `Server.Serve`,
the signal-watcher goroutine, the error classification in `Run`, and the
TLS configuration construction in `ListenAndServeTLS`.

Connection handles (`net.Conn` values used only as map keys) are modelled
as `Nat`; the tracker's `map[net.Conn]struct{}` is a `Finset Nat`.
-/

namespace Graceful

/-! ## Connection tracker

The goroutine in `Server.Serve`:

```go
go func() {
    var done chan struct{}
    connections := map[net.Conn]struct{}{}
    for {
        select {
        case conn := <-add:
            connections[conn] = struct{}{}
        case conn := <-remove:
            delete(connections, conn)
            if done != nil && len(connections) == 0 {
                done <- struct{}{}
                return
            }
        case done = <-stop:
            if len(connections) == 0 {
                done <- struct{}{}
                return
            }
        case <-kill:
            for k := range connections {
                k.Close()
            }
            return
        }
    }
}()
```
-/

/-- One message received by the tracker goroutine: a receive on one of the
four channels `add`, `remove`, `stop`, `kill`. -/
inductive TrackerMsg where
  | add (conn : Nat)
  | remove (conn : Nat)
  | stop
  | kill
  deriving DecidableEq, Repr

/-- Tracker-goroutine state: `connections` is the `map[net.Conn]struct{}`,
`donePending` records whether the local variable `done` is non-nil
(a completion channel has been registered by `stop`). -/
structure TrackerState where
  connections : Finset Nat
  donePending : Bool
  deriving DecidableEq

/-- Observable effects of processing one message: whether the tracker sent
on the registered `done` channel, which connections it called `Close` on,
and whether the goroutine executed `return` (terminated). -/
structure StepOut where
  doneSignaled : Bool
  killed : Finset Nat
  terminated : Bool
  deriving DecidableEq

/-- The tracker goroutine starts with an empty connection map and a nil
`done` channel. -/
def TrackerState.init : TrackerState := ⟨∅, false⟩

/-- One iteration of the tracker's `select` loop, transcribed case by case
from the goroutine body above. -/
def trackerStep (s : TrackerState) (m : TrackerMsg) : TrackerState × StepOut :=
  match m with
  | .add conn =>
      ({ s with connections := insert conn s.connections }, ⟨false, ∅, false⟩)
  | .remove conn =>
      let conns := s.connections.erase conn
      if s.donePending = true ∧ conns = ∅ then
        ({ s with connections := conns }, ⟨true, ∅, true⟩)
      else
        ({ s with connections := conns }, ⟨false, ∅, false⟩)
  | .stop =>
      if s.connections = ∅ then
        ({ s with donePending := true }, ⟨true, ∅, true⟩)
      else
        ({ s with donePending := true }, ⟨false, ∅, false⟩)
  | .kill =>
      (s, ⟨false, s.connections, true⟩)

/-- Run the tracker loop over a sequence of received messages.  The loop
consumes messages one at a time and stops consuming as soon as an
iteration executes `return`. -/
def trackerRun (s : TrackerState) : List TrackerMsg → TrackerState
  | [] => s
  | m :: rest =>
      let r := trackerStep s m
      if r.2.terminated = true then r.1 else trackerRun r.1 rest

/-! ## Connection-state callback

`Server.Serve` installs this callback on the underlying `http.Server`:

```go
srv.Server.ConnState = func(conn net.Conn, state http.ConnState) {
    switch state {
    case http.StateActive:
        add <- conn
    case http.StateClosed, http.StateIdle:
        remove <- conn
    }

    if hook := srv.ConnState; hook != nil {
        hook(conn, state)
    }
}
```
-/

/-- `http.ConnState`: the five connection states of `net/http`. -/
inductive ConnState where
  | stateNew
  | stateActive
  | stateIdle
  | stateHijacked
  | stateClosed
  deriving DecidableEq, Repr

/-- The message the callback's `switch` sends to the tracker for a given
connection state, `none` when no case matches (`StateNew`,
`StateHijacked`). -/
def connStateMsg (conn : Nat) (state : ConnState) : Option TrackerMsg :=
  match state with
  | .stateActive => some (.add conn)
  | .stateClosed => some (.remove conn)
  | .stateIdle => some (.remove conn)
  | _ => none

/-- One observable action of the installed callback: a (blocking,
unbuffered) channel send to the tracker, or a call of the user-supplied
`srv.ConnState` hook. -/
inductive CallbackAction where
  | notifyTracker (m : TrackerMsg)
  | callHook (conn : Nat) (state : ConnState)
  deriving DecidableEq, Repr

/-- `true` exactly on hook-call actions. -/
def CallbackAction.isHook : CallbackAction → Bool
  | .callHook _ _ => true
  | _ => false

/-- The sequence of actions one invocation of the installed callback
performs: first the `switch` (a send to `add` or `remove` when a case
matches; the send is unbuffered, so it completes only once the tracker
has received it), then the user hook when `srv.ConnState` is non-nil. -/
def connStateCallback (hookPresent : Bool) (conn : Nat) (state : ConnState) :
    List CallbackAction :=
  (match connStateMsg conn state with
   | some m => [CallbackAction.notifyTracker m]
   | none => []) ++
  (if hookPresent then [CallbackAction.callHook conn state] else [])

/-! ## Drain coordinator

The tail of `Server.Serve`, after `srv.Server.Serve(listener)` returns:

```go
done := make(chan struct{})
stop <- done

if srv.Timeout > 0 {
    select {
    case <-done:
    case <-time.After(srv.Timeout):
        kill <- struct{}{}
    }
} else {
    <-done
}
```

`srv.Timeout` is a `time.Duration`, a signed 64-bit integer count of
nanoseconds, modelled as `Int`.  `doneTime` is the instant (nanoseconds
after the `stop <- done` request) at which the tracker's send on `done`
becomes ready; `none` means the tracker never completes the drain.
-/

/-- Final disposition of the shutdown session: drain completed naturally
(`stopped`) or the grace timer expired and remaining connections were
force-closed (`forced`). -/
inductive Outcome where
  | stopped
  | forced
  deriving DecidableEq, Repr

/-- What the coordinator's wait produced: the session outcome and whether
it sent on the `kill` channel. -/
structure DrainResult where
  outcome : Outcome
  killIssued : Bool
  deriving DecidableEq, Repr

/-- In the `select` racing `<-done` against `<-time.After(srv.Timeout)`,
the timer case fires first iff the completion is not ready strictly
before the timer expires at `timeout` nanoseconds. -/
def timerFirst (timeout : Int) (doneTime : Option Nat) : Bool :=
  match doneTime with
  | some t => decide (timeout ≤ (t : Int))
  | none => true

/-- The coordinator's wait.  `none` models blocking forever (the
`<-done` receive in the `else` branch when the tracker never signals). -/
def drainWait (timeout : Int) (doneTime : Option Nat) : Option DrainResult :=
  if 0 < timeout then
    if timerFirst timeout doneTime then
      some ⟨.forced, true⟩
    else
      some ⟨.stopped, false⟩
  else
    match doneTime with
    | some _ => some ⟨.stopped, false⟩
    | none => none

/-! ## Shutdown signal watcher

The goroutine in `Server.Serve`:

```go
signal.Notify(srv.interrupt, syscall.SIGINT, syscall.SIGTERM)
go func() {
    for _ = range srv.interrupt {
        srv.SetKeepAlivesEnabled(false)
        listener.Close()
        signal.Stop(srv.interrupt)
        close(srv.interrupt)
    }
}()
```

`range` over a channel yields every value placed in the channel's buffer,
including values buffered before `close`, and terminates once the channel
is closed and drained.  In Go, `close` of an already-closed channel
panics; `listener.Close()` on a closed listener merely returns an error
(ignored here).
-/

/-- Watcher-goroutine state as it mutates the server and channel:
`keepAlivesDisabled` mirrors `srv.SetKeepAlivesEnabled(false)`,
`listenerCloseCount` counts calls to `listener.Close()`,
`signalStopped` mirrors `signal.Stop(srv.interrupt)`,
`channelClosed` mirrors `close(srv.interrupt)`, and `panicked` records a
runtime panic (close of closed channel). -/
structure WatcherState where
  keepAlivesDisabled : Bool
  listenerCloseCount : Nat
  signalStopped : Bool
  channelClosed : Bool
  panicked : Bool
  deriving DecidableEq, Repr

/-- The watcher goroutine's initial state: keep-alives on, listener open,
signal interest registered, channel open. -/
def WatcherState.init : WatcherState := ⟨false, 0, false, false, false⟩

/-- The body of the watcher's `for range` loop, one statement at a time:
disable keep-alives, close the listener, deregister signal interest,
close the channel — where `close` of an already-closed channel panics. -/
def watcherBody (s : WatcherState) : WatcherState :=
  let s1 := { s with keepAlivesDisabled := true }
  let s2 := { s1 with listenerCloseCount := s1.listenerCloseCount + 1 }
  let s3 := { s2 with signalStopped := true }
  if s3.channelClosed = true then
    { s3 with panicked := true }
  else
    { s3 with channelClosed := true }

/-- Run the watcher loop given that the `range` yields `n` signals from
the channel (signals that entered the one-slot buffer before
`signal.Stop`/`close` cut further delivery).  A panic aborts the
goroutine. -/
def watcherRun : Nat → WatcherState → WatcherState
  | 0, s => s
  | n + 1, s => if s.panicked = true then s else watcherRun n (watcherBody s)

/-! ## `Run` error classification

```go
if err := srv.ListenAndServe(); err != nil {
    if opErr, ok := err.(*net.OpError); !ok || (ok && opErr.Op != "accept") {
        logger := log.New(os.Stdout, "[graceful] ", 0)
        logger.Fatal(err)
    }
}
```
-/

/-- The underlying cause wrapped inside a `net.OpError` (its `Err`
field): the sentinel produced when the listener was deliberately closed,
a resource-exhaustion failure from `accept`, or anything else. -/
inductive ErrCause where
  | listenerClosed
  | resourceExhaustion
  | otherCause
  deriving DecidableEq, Repr

/-- A non-nil error returned by `srv.ListenAndServe()`: whether the type
assertion `err.(*net.OpError)` succeeds, the `Op` field, and the wrapped
cause. -/
structure NetError where
  isOpError : Bool
  op : String
  cause : ErrCause
  deriving DecidableEq, Repr

/-- `Run`'s classification of a non-nil error, from the condition
`!ok || (ok && opErr.Op != "accept")`: `true` means `logger.Fatal(err)`
is executed, `false` means the error is swallowed (treated as success). -/
def runFatal (e : NetError) : Bool :=
  !e.isOpError || (e.isOpError && !(e.op == "accept"))

/-- The classification the specification describes: only an
accept-operation error whose cause is the deliberately closed listener is
treated as success; everything else is fatal. -/
def specRunFatal (e : NetError) : Bool :=
  !(e.isOpError && e.op == "accept" && e.cause == ErrCause.listenerClosed)

/-! ## `ListenAndServeTLS`

```go
config := &tls.Config{}
if srv.TLSConfig != nil {
    *config = *srv.TLSConfig
}
if config.NextProtos == nil {
    config.NextProtos = []string{"http/1.1"}
}

var err error
config.Certificates = make([]tls.Certificate, 1)
config.Certificates[0], err = tls.LoadX509KeyPair(certFile, keyFile)
if err != nil {
    return err
}

conn, err := net.Listen("tcp", addr)
if err != nil {
    return err
}

tlsListener := tls.NewListener(conn, config)
return srv.Serve(tlsListener)
```
-/

/-- The externally observable steps of `ListenAndServeTLS` after the
config is built: the certificate load, the `net.Listen` call, the
listener wrap, and the handoff to the accept loop. -/
inductive TLSEvent where
  | loadCert
  | netListen
  | tlsNewListener
  | serve
  deriving DecidableEq, Repr

/-- The error `ListenAndServeTLS` returns early with. -/
inductive TLSError where
  | certLoadError
  | listenError
  deriving DecidableEq, Repr

/-- The sequence of steps `ListenAndServeTLS` executes and the error it
returns, as a function of whether `tls.LoadX509KeyPair` and `net.Listen`
succeed.  The source performs the certificate load before `net.Listen`
and returns immediately on failure of either. -/
def listenAndServeTLSTrace (certOk : Bool) (listenOk : Bool) :
    List TLSEvent × Option TLSError :=
  if certOk = false then
    ([.loadCert], some .certLoadError)
  else if listenOk = false then
    ([.loadCert, .netListen], some .listenError)
  else
    ([.loadCert, .netListen, .tlsNewListener, .serve], none)

/-- The fields of a `tls.Config` that `ListenAndServeTLS` touches.
`nextProtos = none` models a nil `NextProtos` slice; certificates are
opaque handles. -/
structure TLSConfig where
  nextProtos : Option (List String)
  certificates : List Nat
  deriving DecidableEq, Repr

/-- The zero value `tls.Config{}`: nil `NextProtos`, nil
`Certificates`. -/
def TLSConfig.zero : TLSConfig := ⟨none, []⟩

/-- Construction of the config used for the TLS listener.  `config` starts
as the zero value; `*config = *srv.TLSConfig` is a value copy of the
caller's struct when present; the `http/1.1` default and the certificate
slot are then assigned to the copy. -/
def buildTLSConfig (orig : Option TLSConfig) (cert : Nat) : TLSConfig :=
  let config := TLSConfig.zero
  let config := match orig with
    | some c => c
    | none => config
  let config :=
    if config.nextProtos = none then
      { config with nextProtos := some ["http/1.1"] }
    else config
  { config with certificates := [cert] }

/-- Both configs as seen after the construction: the caller's
`srv.TLSConfig` (never assigned through — the code only reads it in the
value copy `*config = *srv.TLSConfig`, so it is returned as it came) and
the freshly built copy handed to `tls.NewListener`. -/
def listenAndServeTLSConfigs (orig : Option TLSConfig) (cert : Nat) :
    Option TLSConfig × TLSConfig :=
  (orig, buildTLSConfig orig cert)

/-! ## Helper lemmas -/

/-- Both branches of the tracker's `remove` case leave `connections`
equal to the erasure of the removed handle. -/
theorem trackerStep_remove_connections (s : TrackerState) (conn : Nat) :
    (trackerStep s (TrackerMsg.remove conn)).1.connections =
      s.connections.erase conn := by
  by_cases hc : s.donePending = true ∧ s.connections.erase conn = ∅ <;>
    simp [trackerStep, hc]

/-! ## Claim theorems -/

/-- C1: the drain coordinator's wait is decided by the grace timeout.  For
every timeout strictly greater than zero it races the completion against
a timer of that duration and issues Kill (Forced outcome) if and only if
the timer fires first; for timeout zero it waits on the completion with
no timer, ending in Stopped without issuing Kill whenever the completion
arrives, and blocking otherwise. -/
theorem C1_drain_race (timeout : Int) (doneTime : Option Nat) :
    (0 < timeout →
      ∃ r, drainWait timeout doneTime = some r ∧
        (r.killIssued = true ↔ timerFirst timeout doneTime = true) ∧
        (r.outcome = Outcome.forced ↔ timerFirst timeout doneTime = true)) ∧
    (timeout = 0 →
      drainWait timeout doneTime =
        doneTime.map (fun _ => ⟨Outcome.stopped, false⟩)) := by
  constructor
  · intro h
    unfold drainWait
    by_cases ht : timerFirst timeout doneTime = true
    · exact ⟨⟨Outcome.forced, true⟩, by simp [h, ht], by simp [ht], by simp [ht]⟩
    · exact ⟨⟨Outcome.stopped, false⟩, by simp [h, ht], by simp [ht], by simp [ht]⟩
  · intro h
    subst h
    unfold drainWait
    cases doneTime <;> simp

/-- C1 witness: at timeout 2 ns with completion ready at 5 ns the race is
settled, and at timeout 0 with completion at 5 ns the wait ends in
Stopped. -/
theorem C1_drain_race_witness :
    (∃ r, drainWait 2 (some 5) = some r ∧
      (r.killIssued = true ↔ timerFirst 2 (some 5) = true) ∧
      (r.outcome = Outcome.forced ↔ timerFirst 2 (some 5) = true)) ∧
    drainWait 0 (some 5) =
      (some 5 : Option Nat).map (fun _ => ⟨Outcome.stopped, false⟩) :=
  ⟨(C1_drain_race 2 (some 5)).1 (by decide), (C1_drain_race 0 (some 5)).2 rfl⟩

/-- C8: any timeout ≤ 0, including strictly negative durations, takes the
`else` branch and behaves exactly like timeout 0: unbounded wait on the
completion, no timer, Kill never issued, and no treatment of a negative
timeout as an already-expired grace period. -/
theorem C8_nonpositive_timeout (timeout : Int) (doneTime : Option Nat)
    (h : timeout ≤ 0) :
    drainWait timeout doneTime = drainWait 0 doneTime ∧
    (∀ r, drainWait timeout doneTime = some r → r = ⟨Outcome.stopped, false⟩) ∧
    drainWait timeout none = none := by
  have h1 : ¬ (0 < timeout) := by omega
  refine ⟨?_, ?_, ?_⟩
  · unfold drainWait
    simp [h1]
  · intro r hr
    unfold drainWait at hr
    rw [if_neg h1] at hr
    cases doneTime with
    | none => exact absurd hr (by simp)
    | some t => exact (Option.some.inj hr).symm
  · unfold drainWait
    simp [h1]

/-- C8 witness: at timeout −3 ns the coordinator behaves as at timeout
0. -/
theorem C8_nonpositive_timeout_witness :
    drainWait (-3) (some 1) = drainWait 0 (some 1) ∧
    (∀ r, drainWait (-3) (some 1) = some r → r = ⟨Outcome.stopped, false⟩) ∧
    drainWait (-3) none = none :=
  C8_nonpositive_timeout (-3) (some 1) (by decide)

/-- C2: on `stop`, an empty active set satisfies the completion
immediately and terminates the tracker; a non-empty set registers the
completion without signaling; with a completion registered, a `remove`
signals and terminates exactly when it empties the set; consequently a
drain whose completion is ready immediately (at time 0) ends in Stopped
without Kill for every timeout value, including zero and negatives. -/
theorem C2_stop_and_wait (s : TrackerState) (conn : Nat) (timeout : Int) :
    (s.connections = ∅ →
      trackerStep s TrackerMsg.stop =
        ({ s with donePending := true }, ⟨true, ∅, true⟩)) ∧
    (s.connections ≠ ∅ →
      trackerStep s TrackerMsg.stop =
        ({ s with donePending := true }, ⟨false, ∅, false⟩)) ∧
    (s.donePending = true →
      ((trackerStep s (TrackerMsg.remove conn)).2.doneSignaled = true ↔
        s.connections.erase conn = ∅) ∧
      ((trackerStep s (TrackerMsg.remove conn)).2.terminated = true ↔
        s.connections.erase conn = ∅)) ∧
    drainWait timeout (some 0) = some ⟨Outcome.stopped, false⟩ := by
  refine ⟨?_, ?_, ?_, ?_⟩
  · intro h
    simp [trackerStep, h]
  · intro h
    simp [trackerStep, h]
  · intro h
    by_cases he : s.connections.erase conn = ∅ <;>
      simp [trackerStep, h, he]
  · unfold drainWait timerFirst
    by_cases h0 : 0 < timeout
    · have : ¬ (timeout ≤ ((0 : Nat) : Int)) := by push_cast; omega
      simp [h0, this]
    · simp [h0]

/-- C2 witness: stopping the freshly started tracker (empty set) signals
completion at once and terminates. -/
theorem C2_stop_and_wait_witness :
    trackerStep TrackerState.init TrackerMsg.stop =
      ({ TrackerState.init with donePending := true }, ⟨true, ∅, true⟩) :=
  (C2_stop_and_wait TrackerState.init 0 0).1 rfl

/-- C3: an Active event inserts the handle into the active set, an Idle or
Closed event removes it (a no-op when the handle is absent, e.g. a
connection that closes without ever becoming Active), and the remaining
state kinds (New, Hijacked) send no message to the tracker, so no other
event kind mutates the set. -/
theorem C3_event_effects (s : TrackerState) (conn : Nat) :
    ((trackerStep s (TrackerMsg.add conn)).1.connections =
      insert conn s.connections) ∧
    ((trackerStep s (TrackerMsg.remove conn)).1.connections =
      s.connections.erase conn) ∧
    (conn ∉ s.connections →
      (trackerStep s (TrackerMsg.remove conn)).1.connections = s.connections) ∧
    (connStateMsg conn ConnState.stateActive = some (TrackerMsg.add conn)) ∧
    (connStateMsg conn ConnState.stateIdle = some (TrackerMsg.remove conn)) ∧
    (connStateMsg conn ConnState.stateClosed = some (TrackerMsg.remove conn)) ∧
    (connStateMsg conn ConnState.stateNew = none) ∧
    (connStateMsg conn ConnState.stateHijacked = none) := by
  refine ⟨rfl, trackerStep_remove_connections s conn, ?_, rfl, rfl, rfl, rfl, rfl⟩
  intro h
  rw [trackerStep_remove_connections s conn, Finset.erase_eq_of_not_mem h]

/-- C3 witness: removing a handle never inserted leaves the empty set
unchanged. -/
theorem C3_event_effects_witness :
    (trackerStep TrackerState.init (TrackerMsg.remove 7)).1.connections =
      TrackerState.init.connections :=
  (C3_event_effects TrackerState.init 7).2.2.1 (by simp [TrackerState.init])

/-- C6: on Kill the tracker closes exactly the handles currently
registered and terminates, and because the goroutine returns, no later
message — insertion or removal — is ever consumed after Kill is
processed. -/
theorem C6_kill_closes_all_and_terminates (s : TrackerState)
    (rest : List TrackerMsg) :
    ((trackerStep s TrackerMsg.kill).2.killed = s.connections) ∧
    ((trackerStep s TrackerMsg.kill).2.terminated = true) ∧
    (trackerRun s (TrackerMsg.kill :: rest) = (trackerStep s TrackerMsg.kill).1) := by
  refine ⟨rfl, rfl, ?_⟩
  simp [trackerRun, trackerStep]

/-- C9: with a caller-supplied hook installed, each invocation of the
replacement ConnState callback performs the hook call exactly once, as
its final action, and every tracker notification it performs precedes the
hook call. -/
theorem C9_hook_after_notify (conn : Nat) (state : ConnState) :
    ((connStateCallback true conn state).filter CallbackAction.isHook =
      [CallbackAction.callHook conn state]) ∧
    (∃ pre, connStateCallback true conn state =
        pre ++ [CallbackAction.callHook conn state] ∧
      ∀ a ∈ pre, ∃ m, a = CallbackAction.notifyTracker m ∧
        connStateMsg conn state = some m) := by
  cases state
  case stateNew =>
    exact ⟨by simp [connStateCallback, connStateMsg, CallbackAction.isHook],
      ⟨[], by simp [connStateCallback, connStateMsg], by simp⟩⟩
  case stateActive =>
    exact ⟨by simp [connStateCallback, connStateMsg, CallbackAction.isHook],
      ⟨[CallbackAction.notifyTracker (TrackerMsg.add conn)],
        by simp [connStateCallback, connStateMsg],
        by intro a ha; simp at ha; exact ⟨TrackerMsg.add conn, ha, rfl⟩⟩⟩
  case stateIdle =>
    exact ⟨by simp [connStateCallback, connStateMsg, CallbackAction.isHook],
      ⟨[CallbackAction.notifyTracker (TrackerMsg.remove conn)],
        by simp [connStateCallback, connStateMsg],
        by intro a ha; simp at ha; exact ⟨TrackerMsg.remove conn, ha, rfl⟩⟩⟩
  case stateHijacked =>
    exact ⟨by simp [connStateCallback, connStateMsg, CallbackAction.isHook],
      ⟨[], by simp [connStateCallback, connStateMsg], by simp⟩⟩
  case stateClosed =>
    exact ⟨by simp [connStateCallback, connStateMsg, CallbackAction.isHook],
      ⟨[CallbackAction.notifyTracker (TrackerMsg.remove conn)],
        by simp [connStateCallback, connStateMsg],
        by intro a ha; simp at ha; exact ⟨TrackerMsg.remove conn, ha, rfl⟩⟩⟩

/-- C9 witness: on an Active transition the callback's only hook call is
the final action. -/
theorem C9_hook_after_notify_witness :
    (connStateCallback true 3 ConnState.stateActive).filter
      CallbackAction.isHook = [CallbackAction.callHook 3 ConnState.stateActive] :=
  (C9_hook_after_notify 3 ConnState.stateActive).1

/-- C4: a single signal behaves as claimed — keep-alives disabled,
listener closed once, signal interest deregistered, no panic.  But the
claim's second-signal scenario fails on the code: when a second signal is
already buffered in the channel as the first is processed, the `for
range` loop yields it after `close(srv.interrupt)`, the body runs again,
the listener is closed a second time, and the second `close` of the
already-closed channel panics. -/
theorem C4_second_signal_panics :
    (watcherRun 1 WatcherState.init = ⟨true, 1, true, true, false⟩) ∧
    ((watcherRun 2 WatcherState.init).panicked = true ∧
     (watcherRun 2 WatcherState.init).listenerCloseCount = 2) := by
  decide

/-- C5 counterexample: an accept-operation error whose cause is resource
exhaustion, not the closed listener.  The claim says it is fatal; `Run`
checks only `Op != "accept"` and swallows it, diverging from the spec's
cause-sensitive classification. -/
theorem C5_counterexample :
    ¬ (runFatal ⟨true, "accept", ErrCause.resourceExhaustion⟩ =
       specRunFatal ⟨true, "accept", ErrCause.resourceExhaustion⟩) := by
  decide

/-- C5 (amended): `Run` treats every accept-operation error as success
regardless of its cause, and treats exactly the remaining errors — a
non-`net.OpError`, or an operation other than accept — as fatal. -/
theorem C5_accept_errors_swallowed (e : NetError) :
    runFatal e = false ↔ (e.isOpError = true ∧ e.op = "accept") := by
  cases e with
  | mk isOp op cause =>
    cases isOp <;> simp [runFatal]

/-- C5 witness: the expected post-shutdown accept error is not fatal. -/
theorem C5_accept_errors_swallowed_witness :
    runFatal ⟨true, "accept", ErrCause.listenerClosed⟩ = false :=
  (C5_accept_errors_swallowed ⟨true, "accept", ErrCause.listenerClosed⟩).mpr
    ⟨rfl, rfl⟩

/-- C7: when the certificate/key pair fails to load, `ListenAndServeTLS`
returns the load error immediately: `net.Listen` is never called (no
listener is created) and the accept loop is never started. -/
theorem C7_cert_failure_early_return (certOk listenOk : Bool)
    (h : certOk = false) :
    listenAndServeTLSTrace certOk listenOk =
      ([TLSEvent.loadCert], some TLSError.certLoadError) ∧
    TLSEvent.netListen ∉ (listenAndServeTLSTrace certOk listenOk).1 ∧
    TLSEvent.serve ∉ (listenAndServeTLSTrace certOk listenOk).1 := by
  subst h
  have ht : listenAndServeTLSTrace false listenOk =
      ([TLSEvent.loadCert], some TLSError.certLoadError) := by
    simp [listenAndServeTLSTrace]
  refine ⟨ht, ?_, ?_⟩ <;> rw [ht] <;> decide

/-- C7 witness: a failing certificate load with a listener that would
have succeeded still returns before listening. -/
theorem C7_cert_failure_early_return_witness :
    listenAndServeTLSTrace false true =
      ([TLSEvent.loadCert], some TLSError.certLoadError) :=
  (C7_cert_failure_early_return false true rfl).1

/-- C10: the caller's `TLSConfig` comes out of the call exactly as it
went in, while the fresh copy handed to the TLS listener gets the
`http/1.1` NextProtos default exactly when the caller supplied none, and
carries the loaded certificate. -/
theorem C10_tls_config_copy (orig : Option TLSConfig) (cert : Nat)
    (c : TLSConfig) :
    ((listenAndServeTLSConfigs orig cert).1 = orig) ∧
    (orig = some c → c.nextProtos = none →
      (listenAndServeTLSConfigs orig cert).2.nextProtos = some ["http/1.1"]) ∧
    (orig = some c → c.nextProtos ≠ none →
      (listenAndServeTLSConfigs orig cert).2.nextProtos = c.nextProtos) ∧
    (orig = none →
      (listenAndServeTLSConfigs orig cert).2.nextProtos = some ["http/1.1"]) ∧
    ((listenAndServeTLSConfigs orig cert).2.certificates = [cert]) := by
  refine ⟨rfl, ?_, ?_, ?_, ?_⟩
  · intro ho hn
    subst ho
    simp [listenAndServeTLSConfigs, buildTLSConfig, hn]
  · intro ho hn
    subst ho
    simp [listenAndServeTLSConfigs, buildTLSConfig, hn]
  · intro ho
    subst ho
    simp [listenAndServeTLSConfigs, buildTLSConfig, TLSConfig.zero]
  · cases orig with
    | none => simp [listenAndServeTLSConfigs, buildTLSConfig, TLSConfig.zero]
    | some c0 =>
      by_cases hn : c0.nextProtos = none <;>
        simp [listenAndServeTLSConfigs, buildTLSConfig, hn]

/-- C10 witness: a caller config with nil NextProtos is returned intact
and the copy receives the default. -/
theorem C10_tls_config_copy_witness :
    ((listenAndServeTLSConfigs (some ⟨none, [9]⟩) 4).1 = some ⟨none, [9]⟩) ∧
    ((listenAndServeTLSConfigs (some ⟨none, [9]⟩) 4).2.nextProtos =
      some ["http/1.1"]) :=
  ⟨(C10_tls_config_copy (some ⟨none, [9]⟩) 4 ⟨none, [9]⟩).1,
   (C10_tls_config_copy (some ⟨none, [9]⟩) 4 ⟨none, [9]⟩).2.1 rfl rfl⟩

end Graceful
